import Mathlib

/-!
Verification of the pass/context dispatch subsystem of masonry-rs
(src/contexts.rs), shallowly embedded in Lean 4.

Coordinates and durations are idealized as integers: every embedded
operation uses only ring and order operations (addition, subtraction,
multiplication, min, max, comparison), which behave over ℤ exactly as over
the reals, and integer coordinates keep every definition evaluable by the
kernel. Debug builds are modelled:
the cfg(debug_assertions) blocks of the source are present, and
debug_panic (which panics in debug builds) is modelled as an
Except.error carrying the diagnostic.
-/

namespace Masonry

/-! ## Geometry (kurbo types used by the source, coordinates as ℤ) -/

/-- A 2D point, as kurbo's Point. -/
structure Point where
  x : ℤ
  y : ℤ
deriving DecidableEq, Repr

/-- A 2D vector, as kurbo's Vec2. -/
structure Vec2 where
  x : ℤ
  y : ℤ
deriving DecidableEq, Repr

/-- A 2D size, as kurbo's Size. -/
structure Size where
  width : ℤ
  height : ℤ
deriving DecidableEq, Repr

/-- An axis-aligned rectangle given by its min and max coordinates, as kurbo's Rect. -/
structure Rect where
  x0 : ℤ
  y0 : ℤ
  x1 : ℤ
  y1 : ℤ
deriving DecidableEq, Repr

/-- Insets of a rectangle's four edges, as kurbo's Insets. -/
structure Insets where
  x0 : ℤ
  y0 : ℤ
  x1 : ℤ
  y1 : ℤ
deriving DecidableEq, Repr

def Point.toVec2 (p : Point) : Vec2 := ⟨p.x, p.y⟩

def Rect.origin (r : Rect) : Point := ⟨r.x0, r.y0⟩

/-- kurbo's Rect::from_origin_size. -/
def Rect.fromOriginSize (o : Point) (s : Size) : Rect :=
  ⟨o.x, o.y, o.x + s.width, o.y + s.height⟩

/-- kurbo's Rect::union: smallest rectangle enclosing both. -/
def Rect.union (r s : Rect) : Rect :=
  ⟨min r.x0 s.x0, min r.y0 s.y0, max r.x1 s.x1, max r.y1 s.y1⟩

/-- kurbo's Rect::area (signed). -/
def Rect.area (r : Rect) : ℤ := (r.x1 - r.x0) * (r.y1 - r.y0)

/-- kurbo's Rect::contains: half-open point membership test. -/
def Rect.containsPt (r : Rect) (p : Point) : Bool :=
  decide (r.x0 ≤ p.x) && decide (p.x < r.x1) && decide (r.y0 ≤ p.y) && decide (p.y < r.y1)

/-- kurbo's Sub of a Vec2 from a Rect: translate by the negated vector. -/
def Rect.subVec2 (r : Rect) (v : Vec2) : Rect :=
  ⟨r.x0 - v.x, r.y0 - v.y, r.x1 - v.x, r.y1 - v.y⟩

/-- kurbo's Add of Insets to a Rect: grow each edge outward by the inset. -/
def Rect.addInsets (r : Rect) (i : Insets) : Rect :=
  ⟨r.x0 - i.x0, r.y0 - i.y0, r.x1 + i.x1, r.y1 + i.y1⟩

/-- kurbo's Insets::nonnegative: clamp every component to at least zero. -/
def Insets.nonnegative (i : Insets) : Insets :=
  ⟨max i.x0 0, max i.y0 0, max i.x1 0, max i.y1 0⟩

/-! ## Region (druid-shell's Region: a list of rectangles) -/

/-- druid-shell's Region: a union of rectangles kept as a list. -/
structure Region where
  rects : List Rect
deriving DecidableEq, Repr

/-- druid-shell's Region::add_rect: append the rectangle if it has positive area. -/
def Region.addRect (reg : Region) (r : Rect) : Region :=
  if r.area > 0 then ⟨reg.rects ++ [r]⟩ else reg

/-- druid-shell's Region::set_rect: replace the region by the single rectangle. -/
def Region.setRect (_reg : Region) (r : Rect) : Region :=
  Region.addRect ⟨[]⟩ r

/-- A point is covered by a region when some stored rectangle contains it. -/
def Region.containsPt (reg : Region) (p : Point) : Bool :=
  reg.rects.any (fun r => r.containsPt p)

/-! ## Identifiers, focus, commands, actions -/

/-- Widget ids are raw naturals (WidgetId::to_raw). -/
abbrev WidgetIdT := Nat

/-- Window ids. -/
abbrev WindowIdT := Nat

/-- Timer tokens. -/
abbrev TimerTokenT := Nat

/-- A pending focus-change request (crate::widget::FocusChange). -/
inductive FocusChange where
  | focus (id : WidgetIdT)
  | next
  | previous
  | resign
deriving DecidableEq, Repr

/-- A command target (druid's Target). -/
inductive Target where
  | auto
  | window (id : WindowIdT)
  | widget (id : WidgetIdT)
  | global
deriving DecidableEq, Repr

/-- A command: an opaque payload plus a target. -/
structure Command where
  payload : Nat
  target : Target
deriving DecidableEq, Repr

/-- druid's Command::default_to: replace an auto target by the given one,
keep an explicit target unchanged. -/
def Command.defaultTo (cmd : Command) (t : Target) : Command :=
  match cmd.target with
  | .auto => { cmd with target := t }
  | _ => cmd

/-- Actions are opaque payloads. -/
abbrev ActionT := Nat

/-! ## Per-widget mutable record (WidgetState) -/

/-- Modelled from the spec: the per-widget mutable record (WidgetState) is
defined outside src/contexts.rs; its fields are taken from the spec's data
model (section 3) and from the field accesses performed by contexts.rs. -/
structure WidgetState where
  id : WidgetIdT
  widget_name : String
  size : Size
  origin : Point
  paint_insets : Insets
  baseline_offset : ℤ
  invalid : Region
  needs_layout : Bool
  children_changed : Bool
  update_focus_chain : Bool
  request_anim : Bool
  is_hot : Bool
  is_active : Bool
  has_active : Bool
  has_focus : Bool
  is_stashed : Bool
  is_portal : Bool
  is_explicitly_disabled_new : Bool
  is_expecting_place_child_call : Bool
  local_paint_rect : Rect
  request_focus : Option FocusChange
  focus_chain : List WidgetIdT
deriving DecidableEq, Repr

/-- Modelled from the spec: WidgetState::layout_rect, the rectangle with the
widget's origin and size (spec section 3, geometry). -/
def WidgetState.layoutRect (ws : WidgetState) : Rect :=
  Rect.fromOriginSize ws.origin ws.size

/-- Modelled from the spec: WidgetState::paint_rect, the layout rectangle
expanded by the paint insets (spec section 3: "paint rectangle (layout
rectangle expanded by paint insets)"). -/
def WidgetState.paintRect (ws : WidgetState) : Rect :=
  ws.layoutRect.addInsets ws.paint_insets

/-- A widget pod: the tree driver's wrapper owning a widget plus its record.
Only the record is relevant to the embedded operations. -/
structure WidgetPod where
  state : WidgetState
deriving DecidableEq, Repr

/-- WidgetPod::layout_rect delegates to the state's layout rectangle. -/
def WidgetPod.layoutRect (pod : WidgetPod) : Rect := pod.state.layoutRect

/-- WidgetPod::paint_rect delegates to the state's paint rectangle. -/
def WidgetPod.paintRect (pod : WidgetPod) : Rect := pod.state.paintRect

/-! ## Timer sources -/

/-- Modelled from the spec: the deterministic test timer source
(crate::testing::MockTimerQueue) is outside src/contexts.rs. Per the spec
(section 6) it exposes "register timer with deadline" returning a token;
tokens are unique and monotonically issued. Durations are integers. -/
structure MockTimerQueue where
  current_time : ℤ
  queue : List (ℤ × TimerTokenT)
  next_token : TimerTokenT
deriving DecidableEq, Repr

/-- Modelled from the spec: MockTimerQueue::add_timer registers a deadline at
current time plus duration and returns a fresh token. -/
def MockTimerQueue.addTimer (q : MockTimerQueue) (duration : ℤ) :
    TimerTokenT × MockTimerQueue :=
  (q.next_token,
   { q with
     queue := q.queue ++ [(q.current_time + duration, q.next_token)]
     next_token := q.next_token + 1 })

/-- Modelled from the spec: the platform window's timer scheduling
(WindowHandle::request_timer) is an external collaborator (section 6); it
returns a fresh token for a scheduled timer. -/
structure WindowHandle where
  next_token : TimerTokenT
deriving DecidableEq, Repr

/-- Modelled from the spec: platform timer scheduling returns a token. -/
def WindowHandle.requestTimer (w : WindowHandle) (_duration : ℤ) :
    TimerTokenT × WindowHandle :=
  (w.next_token, { w with next_token := w.next_token + 1 })

/-- HashMap::insert on the token-to-widget map, modelled as an association
list where a fresh binding shadows (replaces) any older binding of the key. -/
def timersInsert (m : List (TimerTokenT × WidgetIdT)) (k : TimerTokenT)
    (v : WidgetIdT) : List (TimerTokenT × WidgetIdT) :=
  (k, v) :: m.filter (fun p => p.1 ≠ k)

/-- Lookup in the token-to-widget map. -/
def timersLookup (m : List (TimerTokenT × WidgetIdT)) (k : TimerTokenT) :
    Option WidgetIdT :=
  (m.find? (fun p => p.1 = k)).map (fun p => p.2)

/-! ## Shared pass state (GlobalPassCtx) -/

/-- The static state shared between most contexts (GlobalPassCtx).
The ext_event_sink and debug_logger of the source carry no state relevant
to the embedded operations and are omitted; the text factory is opaque. -/
structure GlobalPassCtx where
  command_queue : List Command
  action_queue : List (ActionT × WidgetIdT × WindowIdT)
  timers : List (TimerTokenT × WidgetIdT)
  mock_timer_queue : Option MockTimerQueue
  window_id : WindowIdT
  window : WindowHandle
  focus_widget : Option WidgetIdT
deriving DecidableEq, Repr

/-- GlobalPassCtx::submit_command: push the command, with its target
defaulted to the current window, to the back of the command queue. -/
def GlobalPassCtx.submitCommand (g : GlobalPassCtx) (command : Command) :
    GlobalPassCtx :=
  { g with
    command_queue := g.command_queue ++ [command.defaultTo (.window g.window_id)] }

/-- GlobalPassCtx::submit_action: push (action, widget_id, window_id) to the
back of the action queue. -/
def GlobalPassCtx.submitAction (g : GlobalPassCtx) (action : ActionT)
    (widget_id : WidgetIdT) : GlobalPassCtx :=
  { g with action_queue := g.action_queue ++ [(action, widget_id, g.window_id)] }

/-- GlobalPassCtx::request_timer: obtain a token from the mock timer queue
when one is installed, otherwise from the platform window; record
token -> widget_id in the timer map; return the token. -/
def GlobalPassCtx.requestTimer (g : GlobalPassCtx) (duration : ℤ)
    (widget_id : WidgetIdT) : TimerTokenT × GlobalPassCtx :=
  match g.mock_timer_queue with
  | some timer_queue =>
    let (timer_token, q) := timer_queue.addTimer duration
    (timer_token,
     { g with
       mock_timer_queue := some q
       timers := timersInsert g.timers timer_token widget_id })
  | none =>
    let (timer_token, w) := g.window.requestTimer duration
    (timer_token,
     { g with
       window := w
       timers := timersInsert g.timers timer_token widget_id })

/-! ## Protocol-violation diagnostics (debug_panic) -/

/-- The contents of a debug_panic diagnostic raised by the initialization
protocol: the context view's name, the violating context operation, and the
offending widget's type name and id. -/
structure Diag where
  ctx_name : String
  op_name : String
  widget_name : String
  widget_id : WidgetIdT
deriving DecidableEq, Repr

/-- An abort of the program in a debug build: either a debug_panic carrying
the protocol diagnostic, or the panic raised by the unreachable code in
WidgetCtx::method_name while the diagnostic's arguments are evaluated. -/
inductive Abort where
  | diag (d : Diag)
  | unreachableCode
deriving DecidableEq, Repr

/-- Build the abort raised by a failing init or check_init.  Every diagnostic
format string evaluates Self::method_name(); for WidgetCtx that method is
unreachable code, so the abort carries no diagnostic there. -/
def mkProtocolAbort (ctx_name : String) (method_name : Option String)
    (op_name : String) (ws : WidgetState) : Abort :=
  match method_name with
  | none => .unreachableCode
  | some _ => .diag ⟨ctx_name, op_name, ws.widget_name, ws.id⟩

/-! ## Merge-up and hot-state recomputation -/

/-- The Env passed through layout; opaque to the embedded operations. -/
abbrev Env := Unit

/-- Modelled from the spec: WidgetPod::update_hot_state is defined outside
src/contexts.rs. Per the spec (section 4.3), the widget is hot iff the
pointer position, when known for this pass, lies within the widget's layout
rectangle; the function reports whether the hot flag changed.  (The
recursive re-derivation of descendant hot status lives in the descendant
pods, outside the record embedded here.) -/
def updateHotState (state : WidgetState) (layout_rect : Rect)
    (mouse_pos : Option Point) : WidgetState × Bool :=
  let had_hot := state.is_hot
  let is_hot :=
    match mouse_pos with
    | some pos => layout_rect.containsPt pos
    | none => false
  ({ state with is_hot := is_hot }, had_hot != is_hot)

/-- Modelled from the spec: WidgetState::merge_up is defined outside
src/contexts.rs. Per the spec (sections 4.3 and 3), the parent absorbs the
child's state changes: the accumulated invalid region, the dirtiness flags
(needs-layout, children-changed, update-focus-chain, request-animation),
the active/focus flags, and the pending focus-change request. -/
def WidgetState.mergeUp (parent child : WidgetState) : WidgetState :=
  { parent with
    invalid := ⟨parent.invalid.rects ++ child.invalid.rects⟩
    needs_layout := parent.needs_layout || child.needs_layout
    children_changed := parent.children_changed || child.children_changed
    update_focus_chain := parent.update_focus_chain || child.update_focus_chain
    request_anim := parent.request_anim || child.request_anim
    has_active := parent.has_active || child.has_active
    has_focus := parent.has_focus || child.has_focus
    request_focus := (child.request_focus).orElse (fun _ => parent.request_focus) }

/-! ## WidgetCtx -/

/-- The generic widget context. Self::method_name() is unreachable code. -/
structure WidgetCtx where
  global_state : GlobalPassCtx
  widget_state : WidgetState
  is_init : Bool
deriving DecidableEq, Repr

def WidgetCtx.methodName : Option String := none

def WidgetCtx.init (c : WidgetCtx) : Except Abort WidgetCtx :=
  if c.is_init then
    .error (mkProtocolAbort "WidgetCtx" WidgetCtx.methodName "init" c.widget_state)
  else
    .ok { c with is_init := true }

def WidgetCtx.checkInit (c : WidgetCtx) (method_name : String) :
    Except Abort Unit :=
  if c.is_init then .ok ()
  else .error (mkProtocolAbort "WidgetCtx" WidgetCtx.methodName method_name c.widget_state)

def WidgetCtx.widgetId (c : WidgetCtx) : Except Abort WidgetIdT := do
  _ ← c.checkInit "widget_id"
  pure c.widget_state.id

/-! ## EventCtx -/

/-- The event-delivery context. -/
structure EventCtx where
  global_state : GlobalPassCtx
  widget_state : WidgetState
  is_init : Bool
  notifications : List Nat
  is_handled : Bool
  is_root : Bool
  request_pan_to_child : Option Rect
deriving DecidableEq, Repr

def EventCtx.methodName : Option String := some "on_event"

def EventCtx.init (c : EventCtx) : Except Abort EventCtx :=
  if c.is_init then
    .error (mkProtocolAbort "EventCtx" EventCtx.methodName "init" c.widget_state)
  else
    .ok { c with is_init := true }

def EventCtx.checkInit (c : EventCtx) (method_name : String) :
    Except Abort Unit :=
  if c.is_init then .ok ()
  else .error (mkProtocolAbort "EventCtx" EventCtx.methodName method_name c.widget_state)

def EventCtx.widgetId (c : EventCtx) : Except Abort WidgetIdT := do
  _ ← c.checkInit "widget_id"
  pure c.widget_state.id

/-- request_paint: set the invalid region to the widget's whole paint
rectangle, translated to be relative to the layout rectangle's origin. -/
def EventCtx.requestPaint (c : EventCtx) : Except Abort EventCtx := do
  _ ← c.checkInit "request_paint"
  pure { c with
         widget_state :=
           { c.widget_state with
             invalid := c.widget_state.invalid.setRect
               (c.widget_state.paintRect.subVec2
                 c.widget_state.layoutRect.origin.toVec2) } }

/-- request_paint_rect: add the rectangle to the invalid region. -/
def EventCtx.requestPaintRect (c : EventCtx) (rect : Rect) :
    Except Abort EventCtx := do
  _ ← c.checkInit "request_paint_rect"
  pure { c with
         widget_state :=
           { c.widget_state with invalid := c.widget_state.invalid.addRect rect } }

def EventCtx.requestLayout (c : EventCtx) : Except Abort EventCtx := do
  _ ← c.checkInit "request_layout"
  pure { c with widget_state := { c.widget_state with needs_layout := true } }

def EventCtx.requestAnimFrame (c : EventCtx) : Except Abort EventCtx := do
  _ ← c.checkInit "request_anim_frame"
  pure { c with widget_state := { c.widget_state with request_anim := true } }

/-- children_changed: set children-changed and update-focus-chain, then
request a layout pass. -/
def EventCtx.childrenChanged (c : EventCtx) : Except Abort EventCtx := do
  _ ← c.checkInit "children_changed"
  let c := { c with
             widget_state :=
               { c.widget_state with
                 children_changed := true
                 update_focus_chain := true } }
  c.requestLayout

def EventCtx.setDisabled (c : EventCtx) (disabled : Bool) :
    Except Abort EventCtx := do
  _ ← c.checkInit "set_disabled"
  pure { c with
         widget_state := { c.widget_state with is_explicitly_disabled_new := disabled } }

/-- set_stashed: set the child's stashed flag, then signal children-changed
on the calling widget. -/
def EventCtx.setStashed (c : EventCtx) (child : WidgetPod) (stashed : Bool) :
    Except Abort (EventCtx × WidgetPod) := do
  _ ← c.checkInit "set_stashed"
  let child := { child with state := { child.state with is_stashed := stashed } }
  let c ← c.childrenChanged
  pure (c, child)

def EventCtx.submitCommand (c : EventCtx) (cmd : Command) :
    Except Abort EventCtx := do
  _ ← c.checkInit "submit_command"
  pure { c with global_state := c.global_state.submitCommand cmd }

def EventCtx.submitAction (c : EventCtx) (action : ActionT) :
    Except Abort EventCtx := do
  _ ← c.checkInit "submit_action"
  pure { c with global_state := c.global_state.submitAction action c.widget_state.id }

/-- Context-level request_timer: delegate to the shared pass state, passing
the calling widget's own id. -/
def EventCtx.requestTimer (c : EventCtx) (deadline : ℤ) :
    Except Abort (TimerTokenT × EventCtx) := do
  _ ← c.checkInit "request_timer"
  let (token, g) := c.global_state.requestTimer deadline c.widget_state.id
  pure (token, { c with global_state := g })

/-- request_pan_to_this performs no init check in the source. -/
def EventCtx.requestPanToThis (c : EventCtx) : EventCtx :=
  { c with request_pan_to_child := some c.widget_state.layoutRect }

def EventCtx.requestFocus (c : EventCtx) : Except Abort EventCtx := do
  _ ← c.checkInit "request_focus"
  let id ← c.widgetId
  pure { c with widget_state := { c.widget_state with request_focus := some (.focus id) } }

def EventCtx.setFocus (c : EventCtx) (target : WidgetIdT) :
    Except Abort EventCtx := do
  _ ← c.checkInit "set_focus"
  pure { c with widget_state := { c.widget_state with request_focus := some (.focus target) } }

def warnFocusNext : String :=
  "focus_next can only be called by the currently focused widget or one of its ancestors."

def warnFocusPrev : String :=
  "focus_prev can only be called by the currently focused widget or one of its ancestors."

def warnResignFocus (id : WidgetIdT) : String :=
  "resign_focus can only be called by the currently focused widget or one of its ancestors. ("
    ++ toString id ++ ")"

/-- focus_next: record the Next intent when the widget or a descendant has
focus; otherwise log a warning and change nothing. -/
def EventCtx.focusNext (c : EventCtx) : Except Abort (EventCtx × List String) := do
  _ ← c.checkInit "focus_next"
  _ ← c.checkInit "has_focus"
  if c.widget_state.has_focus then
    pure ({ c with widget_state := { c.widget_state with request_focus := some .next } }, [])
  else
    pure (c, [warnFocusNext])

/-- focus_prev: record the Previous intent when the widget or a descendant
has focus; otherwise log a warning and change nothing. -/
def EventCtx.focusPrev (c : EventCtx) : Except Abort (EventCtx × List String) := do
  _ ← c.checkInit "focus_prev"
  _ ← c.checkInit "has_focus"
  if c.widget_state.has_focus then
    pure ({ c with widget_state := { c.widget_state with request_focus := some .previous } }, [])
  else
    pure (c, [warnFocusPrev])

/-- resign_focus: record the Resign intent when the widget or a descendant
has focus; otherwise log a warning naming the widget and change nothing. -/
def EventCtx.resignFocus (c : EventCtx) : Except Abort (EventCtx × List String) := do
  _ ← c.checkInit "resign_focus"
  _ ← c.checkInit "has_focus"
  if c.widget_state.has_focus then
    pure ({ c with widget_state := { c.widget_state with request_focus := some .resign } }, [])
  else do
    let id ← c.widgetId
    pure (c, [warnResignFocus id])

/-! ## LifeCycleCtx -/

/-- The lifecycle-notification context. -/
structure LifeCycleCtx where
  global_state : GlobalPassCtx
  widget_state : WidgetState
  is_init : Bool
deriving DecidableEq, Repr

def LifeCycleCtx.methodName : Option String := some "lifecycle"

def LifeCycleCtx.init (c : LifeCycleCtx) : Except Abort LifeCycleCtx :=
  if c.is_init then
    .error (mkProtocolAbort "LifeCycleCtx" LifeCycleCtx.methodName "init" c.widget_state)
  else
    .ok { c with is_init := true }

def LifeCycleCtx.checkInit (c : LifeCycleCtx) (method_name : String) :
    Except Abort Unit :=
  if c.is_init then .ok ()
  else .error (mkProtocolAbort "LifeCycleCtx" LifeCycleCtx.methodName method_name c.widget_state)

def LifeCycleCtx.widgetId (c : LifeCycleCtx) : Except Abort WidgetIdT := do
  _ ← c.checkInit "widget_id"
  pure c.widget_state.id

/-- register_for_focus: push the widget's id onto its focus chain. -/
def LifeCycleCtx.registerForFocus (c : LifeCycleCtx) :
    Except Abort LifeCycleCtx := do
  _ ← c.checkInit "register_for_focus"
  let id ← c.widgetId
  pure { c with widget_state := { c.widget_state with focus_chain := c.widget_state.focus_chain ++ [id] } }

/-! ## LayoutCtx -/

/-- The layout context; carries the pass's pointer-position snapshot. -/
structure LayoutCtx where
  global_state : GlobalPassCtx
  widget_state : WidgetState
  is_init : Bool
  mouse_pos : Option Point
deriving DecidableEq, Repr

def LayoutCtx.methodName : Option String := some "layout"

def LayoutCtx.init (c : LayoutCtx) : Except Abort LayoutCtx :=
  if c.is_init then
    .error (mkProtocolAbort "LayoutCtx" LayoutCtx.methodName "init" c.widget_state)
  else
    .ok { c with is_init := true }

def LayoutCtx.checkInit (c : LayoutCtx) (method_name : String) :
    Except Abort Unit :=
  if c.is_init then .ok ()
  else .error (mkProtocolAbort "LayoutCtx" LayoutCtx.methodName method_name c.widget_state)

/-- set_paint_insets: store the nonnegative clamp of the given insets. -/
def LayoutCtx.setPaintInsets (c : LayoutCtx) (insets : Insets) :
    Except Abort LayoutCtx := do
  _ ← c.checkInit "set_paint_insets"
  pure { c with widget_state := { c.widget_state with paint_insets := insets.nonnegative } }

def LayoutCtx.setBaselineOffset (c : LayoutCtx) (baseline : ℤ) :
    Except Abort LayoutCtx := do
  _ ← c.checkInit "set_baseline_offset"
  pure { c with widget_state := { c.widget_state with baseline_offset := baseline } }

/-- place_child performs no init check in the source: set the child's
origin, clear its awaiting-placement flag, union the child's paint
rectangle into the parent's locally accumulated paint rectangle, recompute
the child's hot status against the new layout rectangle and the pass's
pointer snapshot, and, when that recomputation reports a change, merge the
child's record into the parent's. -/
def LayoutCtx.placeChild (c : LayoutCtx) (child : WidgetPod) (origin : Point)
    (_env : Env) : LayoutCtx × WidgetPod :=
  let child := { child with
                 state := { child.state with
                            origin := origin
                            is_expecting_place_child_call := false } }
  let layout_rect := child.layoutRect
  let ws := { c.widget_state with
              local_paint_rect := c.widget_state.local_paint_rect.union child.paintRect }
  let (child_state, hot_changed) := updateHotState child.state layout_rect c.mouse_pos
  let child := { child with state := child_state }
  if hot_changed then
    ({ c with widget_state := ws.mergeUp child.state }, child)
  else
    ({ c with widget_state := ws }, child)

/-! ## PaintCtx and the render surface -/

/-- A 2D affine drawing transform (kurbo's Affine), six coefficients. -/
structure Affine where
  c0 : ℤ
  c1 : ℤ
  c2 : ℤ
  c3 : ℤ
  c4 : ℤ
  c5 : ℤ
deriving DecidableEq, Repr

/-- Modelled from the spec: the rendering surface (Piet) is an external
collaborator (section 6); only its current transform and the outcomes of
its save/restore operations matter to the embedded code.  Each save or
restore call consumes the head of its outcome queue; a missing entry means
success. -/
structure Piet where
  transform : Affine
  save_outcomes : List (Option String)
  restore_outcomes : List (Option String)
deriving DecidableEq, Repr

def Piet.currentTransform (p : Piet) : Affine := p.transform

/-- Modelled from the spec: RenderContext::save may fail (section 7,
resource failures on the drawing surface). -/
def Piet.save (p : Piet) : Except String Unit × Piet :=
  match p.save_outcomes with
  | [] => (.ok (), p)
  | o :: rest =>
    ((match o with
      | none => Except.ok ()
      | some e => Except.error e),
     { p with save_outcomes := rest })

/-- Modelled from the spec: RenderContext::restore may fail. -/
def Piet.restore (p : Piet) : Except String Unit × Piet :=
  match p.restore_outcomes with
  | [] => (.ok (), p)
  | o :: rest =>
    ((match o with
      | none => Except.ok ()
      | some e => Except.error e),
     { p with restore_outcomes := rest })

/-- A deferred z-ordered paint operation: priority, the deferred work
(opaque, of type F), and the drawing transform captured at scheduling
time. -/
structure ZOrderPaintOp (F : Type) where
  z_index : Nat
  paint_func : F
  transform : Affine
deriving DecidableEq, Repr

/-- The paint context, parameterized by the type F of deferred paint work. -/
structure PaintCtx (F : Type) where
  global_state : GlobalPassCtx
  widget_state : WidgetState
  is_init : Bool
  render_ctx : Piet
  z_ops : List (ZOrderPaintOp F)
  region : Region
  depth : Nat
deriving DecidableEq, Repr

def PaintCtx.methodName : Option String := some "paint"

def PaintCtx.init {F : Type} (c : PaintCtx F) : Except Abort (PaintCtx F) :=
  if c.is_init then
    .error (mkProtocolAbort "PaintCtx" PaintCtx.methodName "init" c.widget_state)
  else
    .ok { c with is_init := true }

def PaintCtx.checkInit {F : Type} (c : PaintCtx F) (method_name : String) :
    Except Abort Unit :=
  if c.is_init then .ok ()
  else .error (mkProtocolAbort "PaintCtx" PaintCtx.methodName method_name c.widget_state)

def PaintCtx.widgetId {F : Type} (c : PaintCtx F) : Except Abort WidgetIdT := do
  _ ← c.checkInit "widget_id"
  pure c.widget_state.id

/-- depth performs no init check in the source. -/
def PaintCtx.depthQuery {F : Type} (c : PaintCtx F) : Nat := c.depth

/-- region performs no init check in the source. -/
def PaintCtx.regionQuery {F : Type} (c : PaintCtx F) : Region := c.region

/-- The temporary child context built by with_child_ctx: same surface,
shared pass state and widget record, fresh empty deferred list, the given
visible region, incremented depth, and not yet initialized. -/
def PaintCtx.mkChildCtx {F : Type} (c : PaintCtx F) (region : Region) :
    PaintCtx F :=
  { render_ctx := c.render_ctx
    global_state := c.global_state
    is_init := false
    widget_state := c.widget_state
    z_ops := []
    region := region
    depth := c.depth + 1 }

/-- with_child_ctx: run f on the temporary child context, then append the
child's entire deferred list onto this context's deferred list. -/
def PaintCtx.withChildCtx {F : Type} (c : PaintCtx F) (region : Region)
    (f : PaintCtx F → PaintCtx F) : PaintCtx F :=
  let child := f (c.mkChildCtx region)
  { c with
    render_ctx := child.render_ctx
    global_state := child.global_state
    z_ops := c.z_ops ++ child.z_ops }

/-- with_save: save the surface state; on failure log the error and return
without running f; otherwise run f and restore, logging (only) a restore
failure.  The returned list is the error log. -/
def PaintCtx.withSave {F : Type} (c : PaintCtx F)
    (f : PaintCtx F → PaintCtx F) : PaintCtx F × List String :=
  let (res, rc) := c.render_ctx.save
  match res with
  | .error e => ({ c with render_ctx := rc }, ["Failed to save RenderContext: " ++ e])
  | .ok _ =>
    let c2 := f { c with render_ctx := rc }
    let (res2, rc2) := c2.render_ctx.restore
    match res2 with
    | .error e => ({ c2 with render_ctx := rc2 }, ["Failed to restore RenderContext: " ++ e])
    | .ok _ => ({ c2 with render_ctx := rc2 }, [])

/-- paint_with_z_index performs no init check in the source: capture the
current drawing transform and append the deferred operation; the work is
not run now. -/
def PaintCtx.paintWithZIndex {F : Type} (c : PaintCtx F) (z_index : Nat)
    (paint_func : F) : PaintCtx F :=
  let current_transform := c.render_ctx.currentTransform
  { c with z_ops := c.z_ops ++ [⟨z_index, paint_func, current_transform⟩] }

/-! ## Helper lemmas -/

/-- A rectangle that contains a point in the half-open sense has positive
area. -/
lemma area_pos_of_containsPt (r : Rect) (p : Point)
    (h : r.containsPt p = true) : r.area > 0 := by
  unfold Rect.containsPt at h
  simp only [Bool.and_eq_true, decide_eq_true_eq] at h
  obtain ⟨⟨⟨h1, h2⟩, h3⟩, h4⟩ := h
  unfold Rect.area
  have hx : r.x0 < r.x1 := lt_of_le_of_lt h1 h2
  have hy : r.y0 < r.y1 := lt_of_le_of_lt h3 h4
  have := mul_pos (sub_pos.mpr hx) (sub_pos.mpr hy)
  linarith

/-- add_rect preserves every point already covered by the region. -/
lemma addRect_preserves (reg : Region) (r : Rect) (p : Point)
    (h : reg.containsPt p = true) : (reg.addRect r).containsPt p = true := by
  unfold Region.addRect
  split
  · unfold Region.containsPt at h ⊢
    simp only [List.any_append, Bool.or_eq_true]
    exact Or.inl h
  · exact h

/-- After add_rect, every point of the added rectangle is covered. -/
lemma addRect_covers (reg : Region) (r : Rect) (p : Point)
    (h : r.containsPt p = true) : (reg.addRect r).containsPt p = true := by
  unfold Region.addRect
  rw [if_pos (area_pos_of_containsPt r p h)]
  unfold Region.containsPt
  simp only [List.any_append, Bool.or_eq_true]
  exact Or.inr (by simp [h])

/-- Looking up a key just inserted in the timer map yields its value. -/
lemma timersLookup_insert (m : List (TimerTokenT × WidgetIdT))
    (k : TimerTokenT) (v : WidgetIdT) :
    timersLookup (timersInsert m k v) k = some v := by
  unfold timersLookup timersInsert
  simp [List.find?]

/-- Extract the invalid region of an event-context result (empty region on
abort). -/
def invalidOf : Except Abort EventCtx → Region
  | .ok c => c.widget_state.invalid
  | .error _ => ⟨[]⟩

/-- Whether an Except result is a normal return. -/
def isOkResult {ε α : Type} : Except ε α → Bool
  | .ok _ => true
  | .error _ => false

/-! ## Concrete fixtures used by witnesses and counterexamples -/

/-- A sample widget record: a 10 by 10 button at the window origin whose
invalid region already holds the far-away rectangle (100,100)-(110,110). -/
def wsA : WidgetState :=
  { id := 7
    widget_name := "Button"
    size := ⟨10, 10⟩
    origin := ⟨0, 0⟩
    paint_insets := ⟨0, 0, 0, 0⟩
    baseline_offset := 0
    invalid := ⟨[⟨100, 100, 110, 110⟩]⟩
    needs_layout := false
    children_changed := false
    update_focus_chain := false
    request_anim := false
    is_hot := false
    is_active := false
    has_active := false
    has_focus := false
    is_stashed := false
    is_portal := false
    is_explicitly_disabled_new := false
    is_expecting_place_child_call := true
    local_paint_rect := ⟨0, 0, 0, 0⟩
    request_focus := none
    focus_chain := [] }

/-- A sample shared pass state with no mock timer queue installed. -/
def gFix : GlobalPassCtx :=
  { command_queue := []
    action_queue := []
    timers := []
    mock_timer_queue := none
    window_id := 3
    window := ⟨40⟩
    focus_widget := none }

/-- A sample shared pass state with a mock timer queue installed. -/
def gFixMock : GlobalPassCtx :=
  { gFix with mock_timer_queue := some ⟨0, [], 100⟩ }

/-- A render surface whose save and restore always succeed. -/
def pietOk : Piet :=
  { transform := ⟨1, 0, 0, 1, 5, 6⟩
    save_outcomes := []
    restore_outcomes := [] }

/-- An activated event context over the sample state. -/
def evInit : EventCtx :=
  { global_state := gFix
    widget_state := wsA
    is_init := true
    notifications := []
    is_handled := false
    is_root := true
    request_pan_to_child := none }

/-- A not-yet-activated event context. -/
def evRaw : EventCtx := { evInit with is_init := false }

/-- An activated event context whose widget has (tree) focus. -/
def evFocused : EventCtx :=
  { evInit with widget_state := { wsA with has_focus := true } }

/-- An activated lifecycle context. -/
def lcInit : LifeCycleCtx :=
  { global_state := gFix, widget_state := wsA, is_init := true }

/-- A not-yet-activated lifecycle context. -/
def lcRaw : LifeCycleCtx := { lcInit with is_init := false }

/-- An activated layout context with the pointer at (3,4). -/
def layInit : LayoutCtx :=
  { global_state := gFix
    widget_state := wsA
    is_init := true
    mouse_pos := some ⟨3, 4⟩ }

/-- A not-yet-activated layout context. -/
def layRaw : LayoutCtx := { layInit with is_init := false }

/-- An activated generic widget context. -/
def wcInit : WidgetCtx :=
  { global_state := gFix, widget_state := wsA, is_init := true }

/-- A not-yet-activated generic widget context. -/
def wcRaw : WidgetCtx := { wcInit with is_init := false }

/-- An activated paint context carrying Nat-coded deferred work. -/
def pcInit : PaintCtx Nat :=
  { global_state := gFix
    widget_state := wsA
    is_init := true
    render_ctx := pietOk
    z_ops := []
    region := ⟨[⟨0, 0, 10, 10⟩]⟩
    depth := 2 }

/-- A not-yet-activated paint context. -/
def pcRaw : PaintCtx Nat := { pcInit with is_init := false }

/-- A sample child pod: an 8 by 8 widget awaiting placement, not hot. -/
def podA : WidgetPod :=
  { state :=
    { id := 8
      widget_name := "Label"
      size := ⟨8, 8⟩
      origin := ⟨50, 50⟩
      paint_insets := ⟨1, 1, 1, 1⟩
      baseline_offset := 0
      invalid := ⟨[]⟩
      needs_layout := false
      children_changed := false
      update_focus_chain := false
      request_anim := false
      is_hot := false
      is_active := false
      has_active := false
      has_focus := false
      is_stashed := false
      is_portal := false
      is_explicitly_disabled_new := false
      is_expecting_place_child_call := true
      local_paint_rect := ⟨0, 0, 0, 0⟩
      request_focus := none
      focus_chain := [] } }

/-- A command with no explicit target. -/
def cmdAuto : Command := ⟨11, .auto⟩

/-- A command with an explicit widget target. -/
def cmdExplicit : Command := ⟨12, .widget 9⟩

/-! ## Claim theorems -/

/-- C4: on an EventCtx whose widget has the has-focus flag false, focus_next,
focus_prev and resign_focus are accepted (return normally), log a warning,
and leave the widget's record, in particular its pending focus-change
request, unchanged; when has-focus is true, the corresponding intent (Next,
Previous, Resign) is recorded on the widget's record. -/
theorem focus_change_requires_focus (c : EventCtx) (h : c.is_init = true) :
    (c.widget_state.has_focus = false →
      c.focusNext = .ok (c, [warnFocusNext]) ∧
      c.focusPrev = .ok (c, [warnFocusPrev]) ∧
      c.resignFocus = .ok (c, [warnResignFocus c.widget_state.id])) ∧
    (c.widget_state.has_focus = true →
      c.focusNext =
        .ok ({ c with widget_state := { c.widget_state with request_focus := some .next } }, []) ∧
      c.focusPrev =
        .ok ({ c with widget_state := { c.widget_state with request_focus := some .previous } }, []) ∧
      c.resignFocus =
        .ok ({ c with widget_state := { c.widget_state with request_focus := some .resign } }, [])) := by
  constructor <;> intro hf <;> refine ⟨?_, ?_, ?_⟩ <;>
    simp [EventCtx.focusNext, EventCtx.focusPrev, EventCtx.resignFocus,
          EventCtx.widgetId, EventCtx.checkInit, h, hf,
          Bind.bind, Except.bind, pure, Except.pure]

/-- Witness for C4: the unfocused sample widget gets a warning and no
recorded intent; the focused sample widget records the Resign intent. -/
theorem focus_change_requires_focus_witness :
    evInit.focusNext = .ok (evInit, [warnFocusNext]) ∧
    evFocused.resignFocus =
      .ok ({ evFocused with
             widget_state := { evFocused.widget_state with request_focus := some .resign } }, []) :=
  ⟨((focus_change_requires_focus evInit rfl).1 rfl).1,
   ((focus_change_requires_focus evFocused rfl).2 rfl).2.2⟩

/-- C5: set_stashed(child, stashed) sets the child's stashed flag to the
given value and, by signalling children-changed, sets the parent's
children-changed, update-focus-chain and needs-layout flags to true. -/
theorem set_stashed_spec (c : EventCtx) (child : WidgetPod) (stashed : Bool)
    (h : c.is_init = true) :
    c.setStashed child stashed =
      .ok ({ c with widget_state := { c.widget_state with
               children_changed := true, update_focus_chain := true, needs_layout := true } },
           { child with state := { child.state with is_stashed := stashed } }) := by
  simp [EventCtx.setStashed, EventCtx.childrenChanged, EventCtx.requestLayout,
        EventCtx.checkInit, h, Bind.bind, Except.bind, pure, Except.pure]

/-- Witness for C5: stashing the sample child via the sample context. -/
theorem set_stashed_spec_witness :
    evInit.setStashed podA true =
      .ok ({ evInit with widget_state := { evInit.widget_state with
               children_changed := true, update_focus_chain := true, needs_layout := true } },
           { podA with state := { podA.state with is_stashed := true } }) :=
  set_stashed_spec evInit podA true rfl

/-- C9: submit_command on the shared pass state appends the command to the
back of the command queue; a command without an explicit target is enqueued
with its target defaulted to the current window's id, a command with an
explicit target is enqueued unchanged; the context-level submit_command
delegates to the shared pass state. -/
theorem submit_command_spec (g : GlobalPassCtx) (cmd : Command) :
    (g.submitCommand cmd).command_queue =
      g.command_queue ++ [cmd.defaultTo (.window g.window_id)] ∧
    (cmd.target = .auto →
      (g.submitCommand cmd).command_queue =
        g.command_queue ++ [{ cmd with target := .window g.window_id }]) ∧
    (cmd.target ≠ .auto →
      (g.submitCommand cmd).command_queue = g.command_queue ++ [cmd]) ∧
    (∀ c : EventCtx, c.is_init = true →
      c.submitCommand cmd = .ok { c with global_state := c.global_state.submitCommand cmd }) := by
  refine ⟨rfl, ?_, ?_, ?_⟩
  · intro ha
    simp [GlobalPassCtx.submitCommand, Command.defaultTo, ha]
  · intro hne
    cases ht : cmd.target with
    | auto => exact absurd ht hne
    | window i => simp [GlobalPassCtx.submitCommand, Command.defaultTo, ht]
    | widget i => simp [GlobalPassCtx.submitCommand, Command.defaultTo, ht]
    | global => simp [GlobalPassCtx.submitCommand, Command.defaultTo, ht]
  · intro c h
    simp [EventCtx.submitCommand, EventCtx.checkInit, h,
          Bind.bind, Except.bind, pure, Except.pure]

/-- Witness for C9: an auto-targeted command is enqueued retargeted at the
window; an explicitly targeted one is enqueued unchanged. -/
theorem submit_command_spec_witness :
    (gFix.submitCommand cmdAuto).command_queue =
      gFix.command_queue ++ [{ cmdAuto with target := Target.window gFix.window_id }] ∧
    (gFix.submitCommand cmdExplicit).command_queue =
      gFix.command_queue ++ [cmdExplicit] :=
  ⟨(submit_command_spec gFix cmdAuto).2.1 rfl,
   (submit_command_spec gFix cmdExplicit).2.2.1 (by decide)⟩

/-- C10: set_paint_insets stores the nonnegative clamp of the given insets
(each negative component replaced by zero), so the stored paint rectangle is
never smaller than the layout rectangle on any side. -/
theorem set_paint_insets_nonnegative (c : LayoutCtx) (insets : Insets)
    (h : c.is_init = true) :
    c.setPaintInsets insets =
      .ok { c with widget_state := { c.widget_state with paint_insets := insets.nonnegative } } ∧
    insets.nonnegative =
      ⟨max insets.x0 0, max insets.y0 0, max insets.x1 0, max insets.y1 0⟩ ∧
    (∀ ws : WidgetState, ws.paint_insets = insets.nonnegative →
      ws.paintRect.x0 ≤ ws.layoutRect.x0 ∧ ws.paintRect.y0 ≤ ws.layoutRect.y0 ∧
      ws.layoutRect.x1 ≤ ws.paintRect.x1 ∧ ws.layoutRect.y1 ≤ ws.paintRect.y1) := by
  refine ⟨?_, rfl, ?_⟩
  · simp [LayoutCtx.setPaintInsets, LayoutCtx.checkInit, h,
          Bind.bind, Except.bind, pure, Except.pure]
  · intro ws hws
    have h1 := le_max_right insets.x0 (0 : ℤ)
    have h2 := le_max_right insets.y0 (0 : ℤ)
    have h3 := le_max_right insets.x1 (0 : ℤ)
    have h4 := le_max_right insets.y1 (0 : ℤ)
    simp only [WidgetState.paintRect, WidgetState.layoutRect, Rect.addInsets,
               Rect.fromOriginSize, hws, Insets.nonnegative]
    refine ⟨by linarith, by linarith, by linarith, by linarith⟩

/-- Witness for C10: insets with negative left and right components are
clamped to zero before being stored. -/
theorem set_paint_insets_nonnegative_witness :
    layInit.setPaintInsets ⟨-1, 2, -3, 4⟩ =
      .ok { layInit with
            widget_state := { layInit.widget_state with
              paint_insets := Insets.nonnegative ⟨-1, 2, -3, 4⟩ } } ∧
    Insets.nonnegative ⟨-1, 2, -3, 4⟩ = ⟨0, 2, 0, 4⟩ :=
  ⟨(set_paint_insets_nonnegative layInit ⟨-1, 2, -3, 4⟩ rfl).1, by decide⟩

/-- C2 counterexample: the claim says that after request_paint the invalid
region still contains every rectangle accumulated earlier in the pass.  On
the sample context the invalid region already covers the point (105,105)
through the earlier rectangle (100,100)-(110,110); request_paint returns
normally, yet afterwards that point is no longer covered, because the
source implements request_paint with Region::set_rect, which replaces the
accumulated region instead of adding to it. -/
theorem repaint_accumulation_counterexample :
    evInit.widget_state.invalid.containsPt ⟨105, 105⟩ = true ∧
    isOkResult (EventCtx.requestPaint evInit) = true ∧
    (invalidOf (EventCtx.requestPaint evInit)).containsPt ⟨105, 105⟩ = false := by
  refine ⟨by decide, by decide, by decide⟩

/-- C2 amended: request_paint_rect(r) adds r to the invalid region without
discarding previously accumulated rectangles (every point covered before is
still covered, and every point of r is covered afterwards); request_paint,
however, replaces the invalid region with the widget's whole paint
rectangle translated to be relative to the layout rectangle's origin,
discarding the rectangles accumulated earlier in the pass. -/
theorem repaint_accumulation_amended (c : EventCtx) (rect : Rect)
    (h : c.is_init = true) :
    (c.requestPaintRect rect =
      .ok { c with widget_state := { c.widget_state with
              invalid := c.widget_state.invalid.addRect rect } }) ∧
    (∀ p : Point, c.widget_state.invalid.containsPt p = true →
      (c.widget_state.invalid.addRect rect).containsPt p = true) ∧
    (∀ p : Point, rect.containsPt p = true →
      (c.widget_state.invalid.addRect rect).containsPt p = true) ∧
    (c.requestPaint =
      .ok { c with widget_state := { c.widget_state with
              invalid := Region.setRect c.widget_state.invalid
                (c.widget_state.paintRect.subVec2 c.widget_state.layoutRect.origin.toVec2) } }) ∧
    (∀ reg : Region,
      Region.setRect reg
          (c.widget_state.paintRect.subVec2 c.widget_state.layoutRect.origin.toVec2) =
        Region.setRect c.widget_state.invalid
          (c.widget_state.paintRect.subVec2 c.widget_state.layoutRect.origin.toVec2)) := by
  refine ⟨?_, ?_, ?_, ?_, ?_⟩
  · simp [EventCtx.requestPaintRect, EventCtx.checkInit, h,
          Bind.bind, Except.bind, pure, Except.pure]
  · intro p hp
    exact addRect_preserves _ _ _ hp
  · intro p hp
    exact addRect_covers _ _ _ hp
  · simp [EventCtx.requestPaint, EventCtx.checkInit, h,
          Bind.bind, Except.bind, pure, Except.pure]
  · intro reg
    rfl

/-- Witness for C2 amended: adding the sub-rectangle (10,10)-(20,20) keeps
the earlier rectangle covered and covers the new one. -/
theorem repaint_accumulation_amended_witness :
    evInit.requestPaintRect ⟨10, 10, 20, 20⟩ =
      .ok { evInit with widget_state := { evInit.widget_state with
              invalid := evInit.widget_state.invalid.addRect ⟨10, 10, 20, 20⟩ } } ∧
    (evInit.widget_state.invalid.addRect ⟨10, 10, 20, 20⟩).containsPt ⟨105, 105⟩ = true ∧
    (evInit.widget_state.invalid.addRect ⟨10, 10, 20, 20⟩).containsPt ⟨15, 15⟩ = true :=
  ⟨(repaint_accumulation_amended evInit ⟨10, 10, 20, 20⟩ rfl).1,
   (repaint_accumulation_amended evInit ⟨10, 10, 20, 20⟩ rfl).2.1 ⟨105, 105⟩ (by decide),
   (repaint_accumulation_amended evInit ⟨10, 10, 20, 20⟩ rfl).2.2.1 ⟨15, 15⟩ (by decide)⟩

/-- C6: request_timer on the shared pass state takes the token from the
mock timer queue when one is installed and from the platform window
otherwise, records token -> widget_id in the pass's timer map in the
returned state, and returns that token; the context-level request_timer
delegates with the calling widget's own id. -/
theorem request_timer_spec (g : GlobalPassCtx) (duration : ℤ) (wid : WidgetIdT) :
    (∀ q, g.mock_timer_queue = some q →
      (g.requestTimer duration wid).1 = (q.addTimer duration).1 ∧
      (g.requestTimer duration wid).2.mock_timer_queue = some (q.addTimer duration).2 ∧
      (g.requestTimer duration wid).2.window = g.window) ∧
    (g.mock_timer_queue = none →
      (g.requestTimer duration wid).1 = (g.window.requestTimer duration).1 ∧
      (g.requestTimer duration wid).2.window = (g.window.requestTimer duration).2 ∧
      (g.requestTimer duration wid).2.mock_timer_queue = none) ∧
    timersLookup (g.requestTimer duration wid).2.timers (g.requestTimer duration wid).1 =
      some wid ∧
    (∀ c : EventCtx, c.is_init = true →
      c.requestTimer duration =
        .ok ((c.global_state.requestTimer duration c.widget_state.id).1,
             { c with global_state := (c.global_state.requestTimer duration c.widget_state.id).2 })) := by
  refine ⟨?_, ?_, ?_, ?_⟩
  · intro q hq
    simp [GlobalPassCtx.requestTimer, hq, MockTimerQueue.addTimer]
  · intro hq
    simp [GlobalPassCtx.requestTimer, hq, WindowHandle.requestTimer]
  · cases hq : g.mock_timer_queue with
    | some q =>
      simp [GlobalPassCtx.requestTimer, hq, MockTimerQueue.addTimer, timersLookup_insert]
    | none =>
      simp [GlobalPassCtx.requestTimer, hq, WindowHandle.requestTimer, timersLookup_insert]
  · intro c h
    rcases he : c.global_state.requestTimer duration c.widget_state.id with ⟨tok, g2⟩
    simp [EventCtx.requestTimer, EventCtx.checkInit, h, he,
          Bind.bind, Except.bind, pure, Except.pure]

/-- Witness for C6: with the mock queue installed the token 100 comes from
the queue; without it the token 40 comes from the platform window; both are
mapped to the requesting widget 7. -/
theorem request_timer_spec_witness :
    (gFixMock.requestTimer 3 7).1 = 100 ∧
    timersLookup (gFixMock.requestTimer 3 7).2.timers (gFixMock.requestTimer 3 7).1 = some 7 ∧
    (gFix.requestTimer 3 7).1 = 40 ∧
    timersLookup (gFix.requestTimer 3 7).2.timers (gFix.requestTimer 3 7).1 = some 7 :=
  ⟨((request_timer_spec gFixMock 3 7).1 ⟨0, [], 100⟩ rfl).1,
   (request_timer_spec gFixMock 3 7).2.2.1,
   ((request_timer_spec gFix 3 7).2.1 rfl).1,
   (request_timer_spec gFix 3 7).2.2.1⟩

/-- C7: paint_with_z_index does not run the work now: it only appends a
record of the priority, the work and the drawing transform in effect at
call time to the deferred list, leaving every other component of the paint
context (surface, pass state, widget record, region, depth) unchanged; and
with_child_ctx appends the sub-context's entire deferred list, in order,
onto its parent's when the provided function returns. -/
theorem paint_with_z_index_defers (F : Type) (c : PaintCtx F) (z_index : Nat)
    (paint_func : F) (region : Region) (f : PaintCtx F → PaintCtx F) :
    c.paintWithZIndex z_index paint_func =
      { c with z_ops := c.z_ops ++ [⟨z_index, paint_func, c.render_ctx.currentTransform⟩] } ∧
    (c.withChildCtx region f).z_ops = c.z_ops ++ (f (c.mkChildCtx region)).z_ops ∧
    (c.mkChildCtx region).z_ops = [] :=
  ⟨rfl, rfl, rfl⟩

/-- C3: place_child(child, origin, env) sets the child's origin; clears the
awaiting-placement flag; unions the child's paint rectangle into the
parent's locally accumulated paint rectangle; recomputes the child's hot
status against the pass's pointer snapshot and the child's new layout
rectangle; and merges the child's record into the parent's exactly when
that recomputation reports a change. -/
theorem place_child_spec (c : LayoutCtx) (child : WidgetPod) (origin : Point)
    (env : Env) :
    ((c.placeChild child origin env).2.state.origin = origin) ∧
    ((c.placeChild child origin env).2.state.is_expecting_place_child_call = false) ∧
    ((c.placeChild child origin env).2.state.is_hot =
      (match c.mouse_pos with
       | some pos => (Rect.fromOriginSize origin child.state.size).containsPt pos
       | none => false)) ∧
    ((c.placeChild child origin env).1.widget_state.local_paint_rect =
      c.widget_state.local_paint_rect.union (c.placeChild child origin env).2.state.paintRect) ∧
    ((c.placeChild child origin env).2.state.is_hot ≠ child.state.is_hot →
      (c.placeChild child origin env).1.widget_state =
        WidgetState.mergeUp
          { c.widget_state with
            local_paint_rect := c.widget_state.local_paint_rect.union
              (c.placeChild child origin env).2.state.paintRect }
          (c.placeChild child origin env).2.state) ∧
    ((c.placeChild child origin env).2.state.is_hot = child.state.is_hot →
      (c.placeChild child origin env).1.widget_state =
        { c.widget_state with
          local_paint_rect := c.widget_state.local_paint_rect.union
            (c.placeChild child origin env).2.state.paintRect }) := by
  rcases hmp : c.mouse_pos with _ | pos
  · cases hh : child.state.is_hot <;>
      simp_all [LayoutCtx.placeChild, updateHotState, WidgetPod.layoutRect,
                WidgetPod.paintRect, WidgetState.layoutRect, WidgetState.paintRect,
                Rect.addInsets, Rect.fromOriginSize, WidgetState.mergeUp]
  · cases hh : child.state.is_hot <;>
      cases hb : (Rect.fromOriginSize origin child.state.size).containsPt pos <;>
      simp_all [LayoutCtx.placeChild, updateHotState, WidgetPod.layoutRect,
                WidgetPod.paintRect, WidgetState.layoutRect, WidgetState.paintRect,
                Rect.addInsets, Rect.fromOriginSize, WidgetState.mergeUp]

/-- Witness for C3: placing the sample child at the origin moves it under
the pointer at (3,4), so its hot flag changes and the child's record is
merged into the parent's. -/
theorem place_child_spec_witness :
    ((layInit.placeChild podA ⟨0, 0⟩ ()).2.state.origin = (⟨0, 0⟩ : Point)) ∧
    ((layInit.placeChild podA ⟨0, 0⟩ ()).2.state.is_hot ≠ podA.state.is_hot) ∧
    ((layInit.placeChild podA ⟨0, 0⟩ ()).1.widget_state =
      WidgetState.mergeUp
        { layInit.widget_state with
          local_paint_rect := layInit.widget_state.local_paint_rect.union
            (layInit.placeChild podA ⟨0, 0⟩ ()).2.state.paintRect }
        (layInit.placeChild podA ⟨0, 0⟩ ()).2.state) :=
  ⟨(place_child_spec layInit podA ⟨0, 0⟩ ()).1,
   by decide,
   (place_child_spec layInit podA ⟨0, 0⟩ ()).2.2.2.2.1 (by decide)⟩

/-- C8: a failure of the surface's save operation inside with_save is
logged and skipped: with_save returns normally, the provided function is
not executed (the result does not depend on it); when save succeeds the
function is executed, and a subsequent restore failure is only logged. -/
theorem with_save_recovers (F : Type) (c : PaintCtx F)
    (f g : PaintCtx F → PaintCtx F) :
    (∀ e rc, c.render_ctx.save = (.error e, rc) →
      c.withSave f = ({ c with render_ctx := rc }, ["Failed to save RenderContext: " ++ e]) ∧
      c.withSave f = c.withSave g) ∧
    (∀ rc, c.render_ctx.save = (.ok (), rc) →
      (∀ e rc2, (f { c with render_ctx := rc }).render_ctx.restore = (.error e, rc2) →
        c.withSave f = ({ f { c with render_ctx := rc } with render_ctx := rc2 },
                        ["Failed to restore RenderContext: " ++ e])) ∧
      (∀ rc2, (f { c with render_ctx := rc }).render_ctx.restore = (.ok (), rc2) →
        c.withSave f = ({ f { c with render_ctx := rc } with render_ctx := rc2 }, []))) := by
  refine ⟨?_, ?_⟩
  · intro e rc hs
    constructor
    · simp [PaintCtx.withSave, hs]
    · simp [PaintCtx.withSave, hs]
  · intro rc hs
    constructor
    · intro e rc2 hr
      simp [PaintCtx.withSave, hs, hr]
    · intro rc2 hr
      simp [PaintCtx.withSave, hs, hr]

/-- A render surface whose next save fails. -/
def pietFailSave : Piet := ⟨⟨1, 0, 0, 1, 0, 0⟩, [some "boom"], []⟩

/-- A paint context over the save-failing surface. -/
def pcFailSave : PaintCtx Nat := { pcInit with render_ctx := pietFailSave }

/-- A render surface whose next restore fails. -/
def pietFailRestore : Piet := ⟨⟨1, 0, 0, 1, 0, 0⟩, [], [some "bam"]⟩

/-- A paint context over the restore-failing surface. -/
def pcFailRestore : PaintCtx Nat := { pcInit with render_ctx := pietFailRestore }

/-- Witness for C8: on a failing save, with_save returns normally with the
error logged and the result independent of the closure; on a failing
restore, the closure ran and only the restore error is logged. -/
theorem with_save_recovers_witness :
    pcFailSave.withSave (fun x => x) =
      ({ pcFailSave with render_ctx := ⟨⟨1, 0, 0, 1, 0, 0⟩, [], []⟩ },
       ["Failed to save RenderContext: " ++ "boom"]) ∧
    pcFailSave.withSave (fun x => x) = pcFailSave.withSave (fun _ => pcInit) ∧
    pcFailRestore.withSave (fun x => x) =
      ({ pcFailRestore with render_ctx := ⟨⟨1, 0, 0, 1, 0, 0⟩, [], []⟩ },
       ["Failed to restore RenderContext: " ++ "bam"]) :=
  ⟨((with_save_recovers Nat pcFailSave (fun x => x) (fun _ => pcInit)).1 "boom"
      ⟨⟨1, 0, 0, 1, 0, 0⟩, [], []⟩ rfl).1,
   ((with_save_recovers Nat pcFailSave (fun x => x) (fun _ => pcInit)).1 "boom"
      ⟨⟨1, 0, 0, 1, 0, 0⟩, [], []⟩ rfl).2,
   (((with_save_recovers Nat pcFailRestore (fun x => x) (fun x => x)).2 pietFailRestore
      rfl).1 "bam" ⟨⟨1, 0, 0, 1, 0, 0⟩, [], []⟩ rfl)⟩

/-- C1 counterexample: the claim says every operation of a context view
other than init aborts when called before init.  On the concrete
not-yet-initialized paint context, paint_with_z_index (an operation of the
PaintCtx view, which performs no init check in the source) completes
normally and appends its deferred operation, and depth likewise answers;
neither call aborts. -/
theorem init_protocol_counterexample :
    pcRaw.is_init = false ∧
    pcRaw.paintWithZIndex 5 0 = { pcRaw with z_ops := [⟨5, 0, pietOk.transform⟩] } ∧
    pcRaw.depthQuery = 2 :=
  ⟨rfl, rfl, rfl⟩

/-- C1 amended: calling init a second time aborts — for EventCtx,
LifeCycleCtx, LayoutCtx and PaintCtx with a diagnostic naming the view,
the operation and the widget's id and type, while for WidgetCtx the abort
is the unreachable-code panic raised while evaluating the diagnostic's
method-name argument, so no such diagnostic is produced.  Calling an
operation that performs the init check before init aborts with such a
diagnostic (for WidgetCtx, with the unreachable-code panic); the
operations that perform no init check — among those embedded here
PaintCtx's depth and paint_with_z_index and EventCtx's
request_pan_to_this — proceed normally before init. -/
theorem init_protocol_amended :
    (∀ c : WidgetCtx, c.is_init = true → c.init = .error .unreachableCode) ∧
    (∀ c : EventCtx, c.is_init = true →
      c.init = .error (.diag ⟨"EventCtx", "init", c.widget_state.widget_name, c.widget_state.id⟩)) ∧
    (∀ c : LifeCycleCtx, c.is_init = true →
      c.init = .error (.diag ⟨"LifeCycleCtx", "init", c.widget_state.widget_name, c.widget_state.id⟩)) ∧
    (∀ c : LayoutCtx, c.is_init = true →
      c.init = .error (.diag ⟨"LayoutCtx", "init", c.widget_state.widget_name, c.widget_state.id⟩)) ∧
    (∀ (F : Type) (c : PaintCtx F), c.is_init = true →
      c.init = .error (.diag ⟨"PaintCtx", "init", c.widget_state.widget_name, c.widget_state.id⟩)) ∧
    (∀ c : EventCtx, c.is_init = false →
      c.widgetId = .error (.diag ⟨"EventCtx", "widget_id", c.widget_state.widget_name, c.widget_state.id⟩) ∧
      c.requestPaint = .error (.diag ⟨"EventCtx", "request_paint", c.widget_state.widget_name, c.widget_state.id⟩) ∧
      (∀ r, c.requestPaintRect r =
        .error (.diag ⟨"EventCtx", "request_paint_rect", c.widget_state.widget_name, c.widget_state.id⟩)) ∧
      c.requestLayout = .error (.diag ⟨"EventCtx", "request_layout", c.widget_state.widget_name, c.widget_state.id⟩) ∧
      c.childrenChanged = .error (.diag ⟨"EventCtx", "children_changed", c.widget_state.widget_name, c.widget_state.id⟩) ∧
      (∀ child s, c.setStashed child s =
        .error (.diag ⟨"EventCtx", "set_stashed", c.widget_state.widget_name, c.widget_state.id⟩)) ∧
      (∀ cmd, c.submitCommand cmd =
        .error (.diag ⟨"EventCtx", "submit_command", c.widget_state.widget_name, c.widget_state.id⟩)) ∧
      (∀ d, c.requestTimer d =
        .error (.diag ⟨"EventCtx", "request_timer", c.widget_state.widget_name, c.widget_state.id⟩)) ∧
      c.focusNext = .error (.diag ⟨"EventCtx", "focus_next", c.widget_state.widget_name, c.widget_state.id⟩) ∧
      c.focusPrev = .error (.diag ⟨"EventCtx", "focus_prev", c.widget_state.widget_name, c.widget_state.id⟩) ∧
      c.resignFocus = .error (.diag ⟨"EventCtx", "resign_focus", c.widget_state.widget_name, c.widget_state.id⟩)) ∧
    (∀ c : LifeCycleCtx, c.is_init = false →
      c.registerForFocus =
        .error (.diag ⟨"LifeCycleCtx", "register_for_focus", c.widget_state.widget_name, c.widget_state.id⟩)) ∧
    (∀ c : LayoutCtx, c.is_init = false →
      (∀ i, c.setPaintInsets i =
        .error (.diag ⟨"LayoutCtx", "set_paint_insets", c.widget_state.widget_name, c.widget_state.id⟩)) ∧
      (∀ b, c.setBaselineOffset b =
        .error (.diag ⟨"LayoutCtx", "set_baseline_offset", c.widget_state.widget_name, c.widget_state.id⟩))) ∧
    (∀ (F : Type) (c : PaintCtx F), c.is_init = false →
      c.widgetId = .error (.diag ⟨"PaintCtx", "widget_id", c.widget_state.widget_name, c.widget_state.id⟩)) ∧
    (∀ c : WidgetCtx, c.is_init = false → c.widgetId = .error .unreachableCode) ∧
    (∀ (F : Type) (c : PaintCtx F) (z : Nat) (pf : F), c.is_init = false →
      c.paintWithZIndex z pf =
        { c with z_ops := c.z_ops ++ [⟨z, pf, c.render_ctx.currentTransform⟩] } ∧
      c.depthQuery = c.depth) ∧
    (∀ c : EventCtx, c.is_init = false →
      c.requestPanToThis = { c with request_pan_to_child := some c.widget_state.layoutRect }) := by
  refine ⟨?_, ?_, ?_, ?_, ?_, ?_, ?_, ?_, ?_, ?_, ?_, ?_⟩
  · intro c h
    simp [WidgetCtx.init, WidgetCtx.methodName, mkProtocolAbort, h]
  · intro c h
    simp [EventCtx.init, EventCtx.methodName, mkProtocolAbort, h]
  · intro c h
    simp [LifeCycleCtx.init, LifeCycleCtx.methodName, mkProtocolAbort, h]
  · intro c h
    simp [LayoutCtx.init, LayoutCtx.methodName, mkProtocolAbort, h]
  · intro F c h
    simp [PaintCtx.init, PaintCtx.methodName, mkProtocolAbort, h]
  · intro c h
    refine ⟨?_, ?_, ?_, ?_, ?_, ?_, ?_, ?_, ?_, ?_, ?_⟩ <;>
      try intro _
    all_goals try intro _
    all_goals
      simp [EventCtx.widgetId, EventCtx.requestPaint, EventCtx.requestPaintRect,
            EventCtx.requestLayout, EventCtx.childrenChanged, EventCtx.setStashed,
            EventCtx.submitCommand, EventCtx.requestTimer, EventCtx.focusNext,
            EventCtx.focusPrev, EventCtx.resignFocus, EventCtx.checkInit,
            EventCtx.methodName, mkProtocolAbort, h,
            Bind.bind, Except.bind, pure, Except.pure]
  · intro c h
    simp [LifeCycleCtx.registerForFocus, LifeCycleCtx.widgetId, LifeCycleCtx.checkInit,
          LifeCycleCtx.methodName, mkProtocolAbort, h,
          Bind.bind, Except.bind, pure, Except.pure]
  · intro c h
    constructor <;> intro _ <;>
      simp [LayoutCtx.setPaintInsets, LayoutCtx.setBaselineOffset, LayoutCtx.checkInit,
            LayoutCtx.methodName, mkProtocolAbort, h,
            Bind.bind, Except.bind, pure, Except.pure]
  · intro F c h
    simp [PaintCtx.widgetId, PaintCtx.checkInit, PaintCtx.methodName, mkProtocolAbort, h,
          Bind.bind, Except.bind, pure, Except.pure]
  · intro c h
    simp [WidgetCtx.widgetId, WidgetCtx.checkInit, WidgetCtx.methodName, mkProtocolAbort, h,
          Bind.bind, Except.bind, pure, Except.pure]
  · intro F c z pf h
    exact ⟨rfl, rfl⟩
  · intro c h
    rfl

/-- Witness for C1 amended: double-init on the activated sample event
context aborts with the diagnostic naming the view, init, and widget 7 of
type Button; focus_next on the not-yet-activated event context aborts with
its diagnostic; double-init on the activated generic widget context aborts
through the unreachable-code panic; set_paint_insets on the
not-yet-activated layout context aborts with its diagnostic. -/
theorem init_protocol_amended_witness :
    evInit.init = .error (.diag ⟨"EventCtx", "init", "Button", 7⟩) ∧
    evRaw.focusNext = .error (.diag ⟨"EventCtx", "focus_next", "Button", 7⟩) ∧
    wcInit.init = .error .unreachableCode ∧
    layRaw.setPaintInsets ⟨1, 1, 1, 1⟩ =
      .error (.diag ⟨"LayoutCtx", "set_paint_insets", "Button", 7⟩) :=
  ⟨init_protocol_amended.2.1 evInit rfl,
   (init_protocol_amended.2.2.2.2.2.1 evRaw rfl).2.2.2.2.2.2.2.2.1,
   init_protocol_amended.1 wcInit rfl,
   (init_protocol_amended.2.2.2.2.2.2.2.1 layRaw rfl).1 ⟨1, 1, 1, 1⟩⟩

end Masonry
